import Mathlib

/- Verification of the BetterWH2 433 MHz weather-station receiver
(BetterWH2.ino): a shallow embedding of its interrupt-driven pulse
sampler, the wh2_accept frame decoder, the crc8 checksum and the field
extractors, together with theorems about the decoding pipeline.

Machine integers are modelled as Nat with explicit reduction modulo 256
where the C code uses 8-bit variables.  One `State` record collects the
globals and the static locals of the ISR and of wh2_accept; `isr` is one
timer tick, `wh2_accept` one frame-decoder invocation, and `sysStep` one
tick followed by the cooperative consumption of a pending pulse
classification, exactly as loop() does it. -/

set_option maxRecDepth 40000

namespace BetterWH2

structure State where
  sampling_state : Nat
  count : Nat
  was_low : Bool
  wh2_flags : Nat
  wh2_packet_state : Nat
  wh2_timeout : Nat
  packet_no : Nat
  bit_no : Nat
  history : Nat
  p0 : Nat
  p1 : Nat
  p2 : Nat
  p3 : Nat
  p4 : Nat
  deriving Repr, DecidableEq

def initState : State :=
  { sampling_state := 0, count := 0, was_low := false, wh2_flags := 0,
    wh2_packet_state := 0, wh2_timeout := 0, packet_no := 0, bit_no := 0,
    history := 0, p0 := 0, p1 := 0, p2 := 0, p3 := 0, p4 := 0 }

def GOT_PULSE : Nat := 0x01

def LOGIC_HI : Nat := 0x02

def IS_HI_PULSE (i : Nat) : Bool := decide (2 ≤ i) && decide (i ≤ 3)

def IS_LOW_PULSE (i : Nat) : Bool := decide (7 ≤ i) && decide (i ≤ 8)

def HAS_TIMED_OUT (i : Nat) : Bool := decide (i > 600)

def IDLE_HAS_TIMED_OUT (i : Nat) : Bool := decide (i > 6)

def IDLE_PERIOD_DONE (i : Nat) : Bool := decide (i ≥ 4)

def isrSample (s : State) (rf : Bool) : State :=
  if s.sampling_state = 0 then
    let s := { s with wh2_packet_state := 0 }
    if rf then
      if s.was_low then { s with count := 0, sampling_state := 1, was_low := false }
      else s
    else { s with was_low := true }
  else if s.sampling_state = 1 then
    let s := { s with count := (s.count + 1) % 256 }
    if rf then s
    else
      if IS_HI_PULSE s.count then
        { s with wh2_flags := GOT_PULSE ||| LOGIC_HI, sampling_state := 2, count := 0 }
      else if IS_LOW_PULSE s.count then
        { s with wh2_flags := GOT_PULSE, sampling_state := 2, count := 0 }
      else { s with sampling_state := 0 }
  else if s.sampling_state = 2 then
    let s := { s with count := (s.count + 1) % 256 }
    if rf then
      if IDLE_HAS_TIMED_OUT s.count then { s with sampling_state := 0 }
      else if IDLE_PERIOD_DONE s.count then { s with sampling_state := 1, count := 0 }
      else s
    else s
  else s

def isrTimeout (s : State) : State :=
  if s.wh2_timeout > 0 then
    let s := { s with wh2_timeout := s.wh2_timeout + 1 }
    if HAS_TIMED_OUT s.wh2_timeout then { s with wh2_packet_state := 0, wh2_timeout := 0 }
    else s
  else s

def isr (s : State) (rf : Bool) : State := isrTimeout (isrSample s rf)

def getP (s : State) (i : Nat) : Nat :=
  if i = 0 then s.p0
  else if i = 1 then s.p1
  else if i = 2 then s.p2
  else if i = 3 then s.p3
  else s.p4

def setP (s : State) (i v : Nat) : State :=
  if i = 0 then { s with p0 := v }
  else if i = 1 then { s with p1 := v }
  else if i = 2 then { s with p2 := v }
  else if i = 3 then { s with p3 := v }
  else { s with p4 := v }

def wh2_accept (s0 : State) : Bool × State :=
  let s := if s0.wh2_packet_state = 0 then
      { s0 with history := 0xFF, wh2_packet_state := 1, wh2_timeout := 1 }
    else s0
  if s.wh2_packet_state = 1 then
    let h0 := (s.history <<< 1) % 256
    let h := if s.wh2_flags &&& LOGIC_HI ≠ 0 then h0 ||| 0x01 else h0
    if h &&& 0b00000111 = 0b00000110 then
      let s := { s with history := h, packet_no := 0, bit_no := 1, wh2_packet_state := 2 }
      (false, { s with p0 := 0, p1 := 0, p2 := 0, p3 := 0, p4 := 0 })
    else (false, { s with history := h })
  else if s.wh2_packet_state = 2 then
    let b0 := (getP s s.packet_no <<< 1) % 256
    let b := if s.wh2_flags &&& LOGIC_HI ≠ 0 then b0 ||| 0x01 else b0
    let s := setP s s.packet_no b
    let s := if s.bit_no + 1 > 7 then { s with bit_no := 0, packet_no := s.packet_no + 1 }
             else { s with bit_no := s.bit_no + 1 }
    if s.packet_no > 4 then (true, { s with wh2_packet_state := 0, wh2_timeout := 0 })
    else (false, s)
  else (false, s)

def sysStep (s : State) (rf : Bool) : Bool × State :=
  let s1 := isr s rf
  if s1.wh2_flags ≠ 0 then
    let r := wh2_accept s1
    (r.1, { r.2 with wh2_flags := 0 })
  else (false, s1)

def packetList (s : State) : List Nat := [s.p0, s.p1, s.p2, s.p3, s.p4]

def runCollect (s : State) : List Bool → List (List Nat)
  | [] => []
  | rf :: rest =>
    let r := sysStep s rf
    if r.1 then packetList r.2 :: runCollect r.2 rest
    else runCollect r.2 rest

def crc8_step (p : Nat × Nat) : Nat × Nat :=
  let mix := (p.1 ^^^ p.2) &&& 0x80
  let crc1 := (p.1 <<< 1) % 256
  let crc2 := if mix ≠ 0 then crc1 ^^^ 0x31 else crc1
  (crc2, (p.2 <<< 1) % 256)

def crc8_bits : Nat → Nat × Nat → Nat × Nat
  | 0, p => p
  | n + 1, p => crc8_bits n (crc8_step p)

def crc8_byte (crc inbyte : Nat) : Nat := (crc8_bits 8 (crc, inbyte)).1

def crc8 (addr : List Nat) : Nat := addr.foldl crc8_byte 0

def wh2_calculate_crc (p : List Nat) : Nat := crc8 (p.take 4)

def wh2_valid (calculated : Nat) (p : List Nat) : Bool := calculated == p.getD 4 0

def wh2_sensor_id (p : List Nat) : Nat := (p.getD 0 0 <<< 4) + (p.getD 1 0 >>> 4)

def wh2_humidity (p : List Nat) : Nat := p.getD 3 0

def wh2_temperature (p : List Nat) : Int :=
  let t : Nat := ((p.getD 1 0 &&& 0b00000111) <<< 8) + p.getD 2 0
  if p.getD 1 0 &&& 0b00001000 ≠ 0 then -(t : Int) else (t : Int)

def byteBitsMSB (x : Nat) : List Bool :=
  [x.testBit 7, x.testBit 6, x.testBit 5, x.testBit 4,
   x.testBit 3, x.testBit 2, x.testBit 1, x.testBit 0]

def byteBits7 (x : Nat) : List Bool :=
  [x.testBit 6, x.testBit 5, x.testBit 4,
   x.testBit 3, x.testBit 2, x.testBit 1, x.testBit 0]

def encodeBit (b : Bool) : List Bool :=
  if b then [true, true, false, false, false, false]
  else [true, true, true, true, true, true, true, false, false, false, false]

def demoCrc : Nat := crc8 [0x01, 0x23, 0x45, 0x32]

def demoPacket : List Nat := [0x01, 0x23, 0x45, 0x32, demoCrc]

def demoBits : List Bool :=
  [true, true, false] ++ byteBits7 0x01 ++ byteBitsMSB 0x23 ++
    byteBitsMSB 0x45 ++ byteBitsMSB 0x32 ++ byteBitsMSB demoCrc

def demoInput : List Bool := false :: (demoBits.map encodeBit).flatten

def crcSpecStep (crc : Nat) (b : Bool) : Nat :=
  let c := (crc <<< 1) % 256
  if crc.testBit 7 ≠ b then c ^^^ 0x31 else c

def crc8_spec (bytes : List Nat) : Nat :=
  bytes.foldl (fun c x => (byteBitsMSB x).foldl crcSpecStep c) 0

def shiftB (x : Nat) : Nat := (x <<< 1) % 256

def acceptEvent (s : State) (hi : Bool) : Bool × State :=
  wh2_accept { s with wh2_flags := if hi then GOT_PULSE ||| LOGIC_HI else GOT_PULSE }

def acceptRun (s : State) : List Bool → State
  | [] => s
  | b :: rest => acceptRun (acceptEvent s b).2 rest

def readyCount (s : State) : List Bool → Nat
  | [] => 0
  | b :: rest => (if (acceptEvent s b).1 then 1 else 0) + readyCount (acceptEvent s b).2 rest

def invP (s : State) : Prop :=
  s.wh2_packet_state = 2 →
    ((s.packet_no = 0 ∧ 1 ≤ s.bit_no ∧ s.bit_no ≤ 7 ∧ s.p0 < 2 ^ (s.bit_no - 1)) ∨
     (1 ≤ s.packet_no ∧ s.p0 < 128))

def seededHistory (s : State) : Nat :=
  if s.wh2_packet_state = 0 then 0xFF else s.history

def nextHistory (s : State) (hi : Bool) : Nat :=
  if hi then ((seededHistory s <<< 1) % 256) ||| 0x01
  else (seededHistory s <<< 1) % 256

def postMatchDemo : State :=
  { initState with wh2_packet_state := 2, packet_no := 0, bit_no := 1 }

def timeoutDemo : State :=
  { initState with
      sampling_state := 2
      wh2_flags := GOT_PULSE
      wh2_packet_state := 2
      wh2_timeout := 600 }

def truncatedDemo : State :=
  { initState with
      wh2_packet_state := 2
      packet_no := 3
      bit_no := 5
      wh2_timeout := 600
      history := 0xAB }

def staleDemo : State :=
  { initState with
      packet_no := 3
      bit_no := 5
      history := 0xAB
      p0 := 0x12
      p1 := 0x34 }

lemma and_128_ne_zero (n : Nat) : (n &&& 0x80 ≠ 0) ↔ n.testBit 7 = true := by
  have h : n &&& 0x80 = (n.testBit 7).toNat * 2 ^ 7 := Nat.and_two_pow n 7
  rw [h]
  cases n.testBit 7 <;> simp

lemma crc8_step_eq (c x : Nat) :
    crc8_step (c, x) = (crcSpecStep c (x.testBit 7), shiftB x) := by
  have hmix : ((c ^^^ x) &&& 0x80 ≠ 0) ↔ (c.testBit 7 ≠ x.testBit 7) := by
    rw [and_128_ne_zero, Nat.testBit_xor]
    cases c.testBit 7 <;> cases x.testBit 7 <;> simp
  by_cases h : c.testBit 7 = x.testBit 7
  · simp [crc8_step, crcSpecStep, shiftB, hmix, h]
  · simp [crc8_step, crcSpecStep, shiftB, hmix, h]

lemma shiftB_testBit : ∀ x < 256,
    (shiftB x).testBit 7 = x.testBit 6 ∧
    (shiftB (shiftB x)).testBit 7 = x.testBit 5 ∧
    (shiftB (shiftB (shiftB x))).testBit 7 = x.testBit 4 ∧
    (shiftB (shiftB (shiftB (shiftB x)))).testBit 7 = x.testBit 3 ∧
    (shiftB (shiftB (shiftB (shiftB (shiftB x))))).testBit 7 = x.testBit 2 ∧
    (shiftB (shiftB (shiftB (shiftB (shiftB (shiftB x)))))).testBit 7 = x.testBit 1 ∧
    (shiftB (shiftB (shiftB (shiftB (shiftB (shiftB (shiftB x))))))).testBit 7 = x.testBit 0 := by
  decide

lemma crc8_byte_eq_spec (c : Nat) (x : Nat) (hx : x < 256) :
    crc8_byte c x = (byteBitsMSB x).foldl crcSpecStep c := by
  obtain ⟨h1, h2, h3, h4, h5, h6, h7⟩ := shiftB_testBit x hx
  simp only [crc8_byte, crc8_bits, crc8_step_eq, byteBitsMSB, List.foldl,
    h1, h2, h3, h4, h5, h6, h7]

lemma crc8_go (l : List Nat) : ∀ c : Nat, (∀ b ∈ l, b < 256) →
    l.foldl crc8_byte c = l.foldl (fun a x => (byteBitsMSB x).foldl crcSpecStep a) c := by
  induction l with
  | nil => intro c _; rfl
  | cons b t ih =>
    intro c h
    simp only [List.foldl]
    rw [crc8_byte_eq_spec c b (h b (by simp))]
    exact ih _ (fun y hy => h y (by simp [hy]))

lemma crc8_eq_spec (l : List Nat) (h : ∀ b ∈ l, b < 256) : crc8 l = crc8_spec l :=
  crc8_go l 0 h

lemma crc8_step_fst_lt (p : Nat × Nat) : (crc8_step p).1 < 256 := by
  unfold crc8_step
  dsimp only
  split
  · have h1 : (p.1 <<< 1) % 256 < 2 ^ 8 := Nat.mod_lt _ (by norm_num)
    have h2 : (0x31 : Nat) < 2 ^ 8 := by norm_num
    simpa using Nat.xor_lt_two_pow h1 h2
  · exact Nat.mod_lt _ (by norm_num)

lemma crc8_foldl_lt (l : List Nat) : ∀ c : Nat, c < 256 → l.foldl crc8_byte c < 256 := by
  induction l with
  | nil => intro c h; exact h
  | cons b t ih =>
    intro c h
    exact ih _ (crc8_step_fst_lt _)

lemma crc8_lt (l : List Nat) : crc8 l < 256 := crc8_foldl_lt l 0 (by norm_num)

lemma isrSample_effects (s : State) (rf : Bool) :
    (isrSample s rf).p0 = s.p0 ∧ (isrSample s rf).p1 = s.p1 ∧ (isrSample s rf).p2 = s.p2 ∧
    (isrSample s rf).p3 = s.p3 ∧ (isrSample s rf).p4 = s.p4 ∧
    (isrSample s rf).packet_no = s.packet_no ∧ (isrSample s rf).bit_no = s.bit_no ∧
    (isrSample s rf).history = s.history ∧ (isrSample s rf).wh2_timeout = s.wh2_timeout ∧
    ((isrSample s rf).wh2_packet_state = s.wh2_packet_state ∨
      (isrSample s rf).wh2_packet_state = 0) := by
  unfold isrSample
  dsimp only
  repeat' split
  all_goals simp

lemma isrTimeout_effects (s : State) :
    (isrTimeout s).p0 = s.p0 ∧ (isrTimeout s).p1 = s.p1 ∧ (isrTimeout s).p2 = s.p2 ∧
    (isrTimeout s).p3 = s.p3 ∧ (isrTimeout s).p4 = s.p4 ∧
    (isrTimeout s).packet_no = s.packet_no ∧ (isrTimeout s).bit_no = s.bit_no ∧
    (isrTimeout s).history = s.history ∧
    (isrTimeout s).sampling_state = s.sampling_state ∧
    (isrTimeout s).count = s.count ∧ (isrTimeout s).was_low = s.was_low ∧
    (isrTimeout s).wh2_flags = s.wh2_flags ∧
    ((isrTimeout s).wh2_packet_state = s.wh2_packet_state ∨
      (isrTimeout s).wh2_packet_state = 0) := by
  unfold isrTimeout
  dsimp only
  repeat' split
  all_goals simp

lemma setP_sampling_state (s : State) (i v : Nat) :
    (setP s i v).sampling_state = s.sampling_state := by
  unfold setP
  repeat' split
  all_goals rfl

lemma setP_wh2_packet_state (s : State) (i v : Nat) :
    (setP s i v).wh2_packet_state = s.wh2_packet_state := by
  unfold setP
  repeat' split
  all_goals rfl

lemma setP_wh2_timeout (s : State) (i v : Nat) :
    (setP s i v).wh2_timeout = s.wh2_timeout := by
  unfold setP
  repeat' split
  all_goals rfl

lemma setP_packet_no (s : State) (i v : Nat) :
    (setP s i v).packet_no = s.packet_no := by
  unfold setP
  repeat' split
  all_goals rfl

lemma setP_bit_no (s : State) (i v : Nat) :
    (setP s i v).bit_no = s.bit_no := by
  unfold setP
  repeat' split
  all_goals rfl

lemma setP_history (s : State) (i v : Nat) :
    (setP s i v).history = s.history := by
  unfold setP
  repeat' split
  all_goals rfl

lemma setP_wh2_flags (s : State) (i v : Nat) :
    (setP s i v).wh2_flags = s.wh2_flags := by
  unfold setP
  repeat' split
  all_goals rfl

lemma setP_p0 (s : State) (i v : Nat) :
    (setP s i v).p0 = if i = 0 then v else s.p0 := by
  unfold setP
  repeat' split
  all_goals simp_all

lemma lor_one_of_even : ∀ y < 256, y % 2 = 0 → y ||| 1 = y + 1 := by decide

lemma accept_state2_step (s : State) (h2 : s.wh2_packet_state = 2)
    (hb : s.bit_no ≤ 7) (hprog : 8 * s.packet_no + s.bit_no ≤ 39) :
    if 8 * s.packet_no + s.bit_no = 39 then
      (wh2_accept s).1 = true ∧ (wh2_accept s).2.wh2_packet_state = 0 ∧
        (wh2_accept s).2.wh2_timeout = 0
    else
      (wh2_accept s).1 = false ∧ (wh2_accept s).2.wh2_packet_state = 2 ∧
        (wh2_accept s).2.bit_no ≤ 7 ∧
        8 * (wh2_accept s).2.packet_no + (wh2_accept s).2.bit_no
          = 8 * s.packet_no + s.bit_no + 1 := by
  by_cases h7 : s.bit_no + 1 > 7
  · by_cases hdone : s.packet_no = 4
    · have h39 : 8 * s.packet_no + s.bit_no = 39 := by omega
      simp only [h39, if_pos rfl]
      simp [wh2_accept, h2, h7, hdone, setP_wh2_packet_state, setP_packet_no,
        setP_bit_no, setP_wh2_timeout]
    · have hne : ¬(8 * s.packet_no + s.bit_no = 39) := by omega
      have h5 : ¬(s.packet_no + 1 > 4) := by omega
      rw [if_neg hne]
      simp [wh2_accept, h2, h7, h5, setP_wh2_packet_state, setP_packet_no,
        setP_bit_no, setP_wh2_timeout]
      omega
  · have hne : ¬(8 * s.packet_no + s.bit_no = 39) := by omega
    have h5 : ¬(s.packet_no > 4) := by omega
    rw [if_neg hne]
    simp [wh2_accept, h2, h7, h5, setP_wh2_packet_state, setP_packet_no,
      setP_bit_no, setP_wh2_timeout]
    omega

lemma acceptRun_append (s : State) (l1 l2 : List Bool) :
    acceptRun s (l1 ++ l2) = acceptRun (acceptRun s l1) l2 := by
  induction l1 generalizing s with
  | nil => rfl
  | cons b t ih =>
    simp only [List.cons_append, acceptRun]
    exact ih _

lemma readyCount_append (s : State) (l1 l2 : List Bool) :
    readyCount s (l1 ++ l2) = readyCount s l1 + readyCount (acceptRun s l1) l2 := by
  induction l1 generalizing s with
  | nil => simp only [List.nil_append, readyCount, acceptRun, Nat.zero_add]
  | cons b t ih =>
    simp only [List.cons_append, readyCount, acceptRun, List.append_eq]
    rw [ih]
    omega

lemma acceptRun_progress (l : List Bool) : ∀ s : State, s.wh2_packet_state = 2 →
    s.bit_no ≤ 7 → 8 * s.packet_no + s.bit_no + l.length ≤ 39 →
    (acceptRun s l).wh2_packet_state = 2 ∧ (acceptRun s l).bit_no ≤ 7 ∧
    8 * (acceptRun s l).packet_no + (acceptRun s l).bit_no
      = 8 * s.packet_no + s.bit_no + l.length ∧
    readyCount s l = 0 := by
  induction l with
  | nil =>
    intro s h2 hb _
    exact ⟨h2, hb, by simp [acceptRun], rfl⟩
  | cons b t ih =>
    intro s h2 hb hlen
    simp only [List.length_cons] at hlen
    have hstep := accept_state2_step
      { s with wh2_flags := if b then GOT_PULSE ||| LOGIC_HI else GOT_PULSE }
      h2 hb (by simp only; omega)
    have hne : ¬(8 * ({ s with wh2_flags := if b then GOT_PULSE ||| LOGIC_HI
        else GOT_PULSE } : State).packet_no +
        ({ s with wh2_flags := if b then GOT_PULSE ||| LOGIC_HI
        else GOT_PULSE } : State).bit_no = 39) := by
      simp only
      omega
    rw [if_neg hne] at hstep
    obtain ⟨hr, h2n, hbn, hpn⟩ := hstep
    have hrec := ih (acceptEvent s b).2 h2n hbn (by
      have : 8 * (acceptEvent s b).2.packet_no + (acceptEvent s b).2.bit_no
          = 8 * s.packet_no + s.bit_no + 1 := hpn
      omega)
    obtain ⟨r1, r2, r3, r4⟩ := hrec
    refine ⟨r1, r2, ?_, ?_⟩
    · simp only [acceptRun, List.length_cons]
      rw [r3]
      have : 8 * (acceptEvent s b).2.packet_no + (acceptEvent s b).2.bit_no
          = 8 * s.packet_no + s.bit_no + 1 := hpn
      omega
    · simp only [readyCount]
      rw [r4]
      have : (acceptEvent s b).1 = false := hr
      simp [this]

lemma wh2_accept_inv (s : State) (h : invP s) :
    invP (wh2_accept s).2 ∧ ((wh2_accept s).1 = true → (wh2_accept s).2.p0 < 128) := by
  by_cases h0 : s.wh2_packet_state = 0
  · by_cases hf : s.wh2_flags &&& LOGIC_HI ≠ 0
    · have hm : ¬((255:Nat) &&& 7 = 6) := by decide
      simp [wh2_accept, h0, hf, hm, invP]
    · have hm : (254:Nat) &&& 7 = 6 := by decide
      simp [wh2_accept, h0, hf, hm, invP]
  · by_cases h1 : s.wh2_packet_state = 1
    · by_cases hf : s.wh2_flags &&& LOGIC_HI ≠ 0
      · by_cases hm : (((s.history <<< 1) % 256) ||| 0x01) &&& 7 = 6
        · simp [wh2_accept, h0, h1, hf, hm, invP]
        · simp [wh2_accept, h0, h1, hf, hm, invP]
      · by_cases hm : ((s.history <<< 1) % 256) &&& 7 = 6
        · simp [wh2_accept, h0, h1, hf, hm, invP]
        · simp [wh2_accept, h0, h1, hf, hm, invP]
    · by_cases h2 : s.wh2_packet_state = 2
      · have hd := h h2
        rcases hd with ⟨hpn0, hb1, hb7, hp0⟩ | ⟨hpn1, hp0⟩
        · -- still filling byte 0
          have he : (2 : Nat) ^ (s.bit_no - 1) ≤ 64 := by
            calc (2:Nat) ^ (s.bit_no - 1) ≤ 2 ^ 6 :=
                  Nat.pow_le_pow_right (by norm_num) (by omega)
              _ = 64 := by norm_num
          have hp0' : s.p0 < 64 := lt_of_lt_of_le hp0 he
          have hsh : (s.p0 <<< 1) % 256 = 2 * s.p0 := by
            rw [Nat.shiftLeft_eq]
            have h21 : s.p0 * 2 ^ 1 = 2 * s.p0 := by ring
            rw [h21, Nat.mod_eq_of_lt (by omega)]
          have hpow : ∀ n : Nat, 1 ≤ n → (2:Nat) ^ n = 2 * 2 ^ (n - 1) := by
            intro n hn
            conv_lhs => rw [show n = (n - 1) + 1 from by omega]
            rw [pow_succ, Nat.mul_comm]
          have hb2 : (2:Nat) ^ s.bit_no = 2 * 2 ^ (s.bit_no - 1) := hpow s.bit_no hb1
          have hget : getP s 0 = s.p0 := by simp [getP]
          have hlor : (2 * s.p0) ||| 1 = 2 * s.p0 + 1 :=
            lor_one_of_even _ (by omega) (by omega)
          by_cases h7 : s.bit_no + 1 > 7
          · have hbn7 : s.bit_no = 7 := by omega
            by_cases hf : s.wh2_flags &&& LOGIC_HI ≠ 0
            · simp [wh2_accept, h0, h1, h2, hf, hget, hsh, hlor, h7, hpn0, invP,
                setP_wh2_packet_state, setP_packet_no, setP_bit_no, setP_p0]
              omega
            · simp [wh2_accept, h0, h1, h2, hf, hget, hsh, h7, hpn0, invP,
                setP_wh2_packet_state, setP_packet_no, setP_bit_no, setP_p0]
              omega
          · by_cases hf : s.wh2_flags &&& LOGIC_HI ≠ 0
            · simp [wh2_accept, h0, h1, h2, hf, hget, hsh, hlor, h7, hpn0, invP,
                setP_wh2_packet_state, setP_packet_no, setP_bit_no, setP_p0]
              omega
            · simp [wh2_accept, h0, h1, h2, hf, hget, hsh, h7, hpn0, invP,
                setP_wh2_packet_state, setP_packet_no, setP_bit_no, setP_p0]
              omega
        · -- bytes 1..4
          have hne0 : ¬(s.packet_no = 0) := by omega
          by_cases h7 : s.bit_no + 1 > 7
          · by_cases hrdy : s.packet_no + 1 > 4
            · simp [wh2_accept, h0, h1, h2, h7, hrdy, hne0, invP,
                setP_wh2_packet_state, setP_packet_no, setP_bit_no, setP_p0]
              omega
            · simp [wh2_accept, h0, h1, h2, h7, hrdy, hne0, invP,
                setP_wh2_packet_state, setP_packet_no, setP_bit_no, setP_p0]
              omega
          · by_cases hrdy : s.packet_no > 4
            · simp [wh2_accept, h0, h1, h2, h7, hrdy, hne0, invP,
                setP_wh2_packet_state, setP_packet_no, setP_bit_no, setP_p0]
              omega
            · simp [wh2_accept, h0, h1, h2, h7, hrdy, hne0, invP,
                setP_wh2_packet_state, setP_packet_no, setP_bit_no, setP_p0]
              omega
      · -- inert state
        simp [wh2_accept, h0, h1, h2, invP]

lemma invP_init : invP initState := by
  intro h
  simp [initState] at h

lemma isr_invP (s : State) (rf : Bool) (h : invP s) : invP (isr s rf) := by
  obtain ⟨a1, a2, a3, a4, a5, a6, a7, a8, a9, a10⟩ := isrSample_effects s rf
  obtain ⟨b1, b2, b3, b4, b5, b6, b7, b8, b9, b10, b11, b12, b13⟩ :=
    isrTimeout_effects (isrSample s rf)
  simp only [invP, isr] at h ⊢
  intro hps
  rw [b6, a6, b7, a7, b1, a1]
  apply h
  rcases b13 with hb | hb
  · rw [hb] at hps
    rcases a10 with ha | ha
    · rw [ha] at hps; exact hps
    · rw [ha] at hps; exact absurd hps (by norm_num)
  · rw [hb] at hps
    exact absurd hps (by norm_num)

lemma sysStep_invP (s : State) (rf : Bool) (h : invP s) :
    invP (sysStep s rf).2 ∧ ((sysStep s rf).1 = true → (sysStep s rf).2.p0 < 128) := by
  have hi := isr_invP s rf h
  unfold sysStep
  dsimp only
  split
  · have ha := wh2_accept_inv (isr s rf) hi
    refine ⟨fun hps => ha.1 hps, fun hr => ha.2 hr⟩
  · exact ⟨hi, by simp⟩

lemma runCollect_head_lt (l : List Bool) : ∀ s : State, invP s →
    ∀ p ∈ runCollect s l, p.getD 0 0 < 128 := by
  induction l with
  | nil => intro s _ p hp; simp [runCollect] at hp
  | cons rf t ih =>
    intro s hs p hp
    have hss := sysStep_invP s rf hs
    simp only [runCollect] at hp
    by_cases hr : (sysStep s rf).1 = true
    · rw [if_pos hr] at hp
      rcases List.mem_cons.mp hp with heq | hmem
      · subst heq
        have hlt := hss.2 hr
        simpa [packetList] using hlt
      · exact ih _ hss.1 p hmem
    · rw [if_neg hr] at hp
      exact ih _ hss.1 p hp

lemma acceptEvent_enter_accum (s : State) (hi : Bool)
    (h01 : s.wh2_packet_state = 0 ∨ s.wh2_packet_state = 1) :
    ((acceptEvent s hi).2.wh2_packet_state = 2 ↔ nextHistory s hi &&& 7 = 6) ∧
    (acceptEvent s hi).1 = false ∧
    (acceptEvent s hi).2.history = nextHistory s hi := by
  rcases h01 with h0 | h1
  · cases hi
    · have hm : (254:Nat) &&& 7 = 6 := by decide
      simp [acceptEvent, wh2_accept, nextHistory, seededHistory, h0, hm,
        GOT_PULSE, LOGIC_HI]
    · have hm : ¬((255:Nat) &&& 7 = 6) := by decide
      simp [acceptEvent, wh2_accept, nextHistory, seededHistory, h0, hm,
        GOT_PULSE, LOGIC_HI]
  · cases hi
    · by_cases hm : ((s.history <<< 1) % 256) &&& 7 = 6
      · simp [acceptEvent, wh2_accept, nextHistory, seededHistory, h1, hm,
          GOT_PULSE, LOGIC_HI]
      · simp [acceptEvent, wh2_accept, nextHistory, seededHistory, h1, hm,
          GOT_PULSE, LOGIC_HI]
    · by_cases hm : (((s.history <<< 1) % 256) ||| 0x01) &&& 7 = 6
      · simp [acceptEvent, wh2_accept, nextHistory, seededHistory, h1, hm,
          GOT_PULSE, LOGIC_HI]
      · simp [acceptEvent, wh2_accept, nextHistory, seededHistory, h1, hm,
          GOT_PULSE, LOGIC_HI]

lemma acceptEvent_stay_seeking (s : State) (hi : Bool)
    (h01 : s.wh2_packet_state = 0 ∨ s.wh2_packet_state = 1)
    (hm : ¬(nextHistory s hi &&& 7 = 6)) :
    (acceptEvent s hi).2.wh2_packet_state = 1 := by
  rcases h01 with h0 | h1
  · cases hi
    · have h254 : nextHistory s false = 254 := by
        simp [nextHistory, seededHistory, h0]
      rw [h254] at hm
      exact absurd (by decide) hm
    · have hm' : ¬((255:Nat) &&& 7 = 6) := by decide
      simp [acceptEvent, wh2_accept, h0, hm', GOT_PULSE, LOGIC_HI]
  · cases hi
    · simp only [nextHistory, seededHistory, h1] at hm
      simp at hm
      simp [acceptEvent, wh2_accept, h1, hm, GOT_PULSE, LOGIC_HI]
    · simp only [nextHistory, seededHistory, h1] at hm
      simp at hm
      simp [acceptEvent, wh2_accept, h1, hm, GOT_PULSE, LOGIC_HI]

lemma acceptEvent_match (s : State) (hi : Bool) (h1 : s.wh2_packet_state = 1)
    (hm : nextHistory s hi &&& 7 = 6) :
    (acceptEvent s hi).1 = false ∧
    (acceptEvent s hi).2.wh2_packet_state = 2 ∧
    (acceptEvent s hi).2.packet_no = 0 ∧
    (acceptEvent s hi).2.bit_no = 1 ∧
    packetList (acceptEvent s hi).2 = [0, 0, 0, 0, 0] := by
  cases hi
  · simp only [nextHistory, seededHistory, h1] at hm
    simp at hm
    simp [acceptEvent, wh2_accept, h1, hm, GOT_PULSE, LOGIC_HI, packetList]
  · simp only [nextHistory, seededHistory, h1] at hm
    simp at hm
    simp [acceptEvent, wh2_accept, h1, hm, GOT_PULSE, LOGIC_HI, packetList]

lemma acceptEvent_history (s : State) (hi : Bool)
    (h01 : s.wh2_packet_state = 0 ∨ s.wh2_packet_state = 1) :
    (acceptEvent s hi).2.history = nextHistory s hi ∧ (acceptEvent s hi).1 = false :=
  ⟨(acceptEvent_enter_accum s hi h01).2.2, (acceptEvent_enter_accum s hi h01).2.1⟩

lemma acceptRun_resync (s : State) (h0 : s.wh2_packet_state = 0) :
    (acceptRun s [true, true, false]).wh2_packet_state = 2 ∧
    (acceptRun s [true, true, false]).packet_no = 0 ∧
    (acceptRun s [true, true, false]).bit_no = 1 ∧
    packetList (acceptRun s [true, true, false]) = [0, 0, 0, 0, 0] ∧
    readyCount s [true, true, false] = 0 := by
  have hseed1 : seededHistory s = 255 := by simp [seededHistory, h0]
  have hnh1 : nextHistory s true = 255 := by
    simp only [nextHistory, hseed1]
    decide
  have hst1 : (acceptEvent s true).2.wh2_packet_state = 1 :=
    acceptEvent_stay_seeking s true (Or.inl h0) (by rw [hnh1]; decide)
  have hh1 : (acceptEvent s true).2.history = 255 := by
    rw [(acceptEvent_history s true (Or.inl h0)).1, hnh1]
  have hr1 : (acceptEvent s true).1 = false := (acceptEvent_history s true (Or.inl h0)).2
  have hseed2 : seededHistory (acceptEvent s true).2 = 255 := by
    simp [seededHistory, hst1, hh1]
  have hnh2 : nextHistory (acceptEvent s true).2 true = 255 := by
    simp only [nextHistory, hseed2]
    decide
  have hst2 : (acceptEvent (acceptEvent s true).2 true).2.wh2_packet_state = 1 :=
    acceptEvent_stay_seeking _ true (Or.inr hst1) (by rw [hnh2]; decide)
  have hh2 : (acceptEvent (acceptEvent s true).2 true).2.history = 255 := by
    rw [(acceptEvent_history _ true (Or.inr hst1)).1, hnh2]
  have hr2 : (acceptEvent (acceptEvent s true).2 true).1 = false :=
    (acceptEvent_history _ true (Or.inr hst1)).2
  have hseed3 : seededHistory (acceptEvent (acceptEvent s true).2 true).2 = 255 := by
    simp [seededHistory, hst2, hh2]
  have hnh3 : nextHistory (acceptEvent (acceptEvent s true).2 true).2 false = 254 := by
    simp only [nextHistory, hseed3]
    decide
  obtain ⟨hr3, hm2, hm3, hm4, hm5⟩ :=
    acceptEvent_match (acceptEvent (acceptEvent s true).2 true).2 false hst2
      (by rw [hnh3]; decide)
  refine ⟨?_, ?_, ?_, ?_, ?_⟩
  · simpa [acceptRun] using hm2
  · simpa [acceptRun] using hm3
  · simpa [acceptRun] using hm4
  · simpa [acceptRun] using hm5
  · simp [readyCount, hr1, hr2, hr3]

lemma isr_timeout_reset (s : State) (rf : Bool) (h1 : s.wh2_timeout > 0)
    (h2 : HAS_TIMED_OUT (s.wh2_timeout + 1) = true) :
    (isr s rf).wh2_packet_state = 0 ∧ (isr s rf).wh2_timeout = 0 := by
  obtain ⟨a1, a2, a3, a4, a5, a6, a7, a8, a9, a10⟩ := isrSample_effects s rf
  unfold isr isrTimeout
  rw [a9]
  simp [h1, h2]

lemma acceptRun_complete (s : State) (bits : List Bool)
    (h2 : s.wh2_packet_state = 2) (hpn : s.packet_no = 0) (hbn : s.bit_no = 1)
    (hlen : bits.length = 39) :
    (acceptRun s bits).wh2_packet_state = 0 ∧ readyCount s bits = 1 := by
  have hsplit := List.take_append_drop 38 bits
  have hlen38 : (bits.take 38).length = 38 := by rw [List.length_take]; omega
  have hlend : (bits.drop 38).length = 1 := by rw [List.length_drop]; omega
  obtain ⟨b, hb⟩ : ∃ b, bits.drop 38 = [b] := by
    match hd : bits.drop 38 with
    | [] => rw [hd] at hlend; simp at hlend
    | [b] => exact ⟨b, rfl⟩
    | b :: c :: t => rw [hd] at hlend; simp at hlend
  obtain ⟨q2, qb, qprog, qrc⟩ :=
    acceptRun_progress (bits.take 38) s h2 (by omega) (by rw [hlen38]; omega)
  have hstep := accept_state2_step
    { acceptRun s (bits.take 38) with
      wh2_flags := if b then GOT_PULSE ||| LOGIC_HI else GOT_PULSE } q2 qb
    (by simp only; omega)
  rw [if_pos (by simp only; omega)] at hstep
  obtain ⟨hr, hs0, _⟩ := hstep
  have hr' : (acceptEvent (acceptRun s (List.take 38 bits)) b).1 = true := hr
  have hs0' : (acceptEvent (acceptRun s (List.take 38 bits)) b).2.wh2_packet_state = 0 := hs0
  constructor
  · rw [← hsplit, acceptRun_append, hb]
    simpa [acceptRun] using hs0'
  · rw [← hsplit, readyCount_append, qrc, hb]
    simp [readyCount, hr']

/-- Claim C1, counterexample: the claim as stated is unsatisfiable.  No input
sample sequence whatsoever can make the decoder signal a ready packet whose
first byte is 0x81, because wh2_packet[0] is zeroed at the preamble match and
bit_no starts at 1, so byte 0 only ever receives 7 bits (its value stays below
0x80).  Moreover the temperature the code extracts from bytes 0x23/0x45 is
((0x23 &&& 7) <<< 8) + 0x45 = 0x345 = 837 tenths, not 0x145 = 325. -/
theorem no_run_yields_first_byte_0x81 :
    (∀ bs : List Bool,
      [0x81, 0x23, 0x45, 0x32, crc8 [0x81, 0x23, 0x45, 0x32]] ∉ runCollect initState bs) ∧
    wh2_temperature [0x81, 0x23, 0x45, 0x32, crc8 [0x81, 0x23, 0x45, 0x32]] = 837 := by
  constructor
  · intro bs hmem
    have hlt := runCollect_head_lt bs initState invP_init _ hmem
    simp [List.getD] at hlt
  · decide

/-- Claim C1, amended: full end-to-end decode.  Running the sampler and frame
decoder over the synthetic pulse-width sequence demoInput - preamble bits
1,1,0 followed by the 39 packet bits of [0x01, 0x23, 0x45, 0x32, crc] with
crc = crc8 of the first four bytes (byte 0 contributes only 7 bits, its
leading bit being the preamble terminator 0) - produces exactly one ready
packet equal to that 5-byte sequence, reported valid, with sensor id
(0x01 <<< 4) + (0x23 >>> 4) = 0x012, humidity 0x32 = 50, and temperature
sign bit clear giving +0x345 = +837 tenths of a degree. -/
theorem end_to_end_demo_decode :
    demoPacket = [0x01, 0x23, 0x45, 0x32, crc8 [0x01, 0x23, 0x45, 0x32]] ∧
    runCollect initState demoInput = [demoPacket] ∧
    wh2_valid (wh2_calculate_crc demoPacket) demoPacket = true ∧
    wh2_sensor_id demoPacket = 0x012 ∧
    wh2_humidity demoPacket = 50 ∧
    wh2_temperature demoPacket = 837 := by
  refine ⟨rfl, by decide, by decide, by decide, by decide, by decide⟩

/-- Claim C2, counterexample: from the state reached immediately after a
preamble match (packet_no = 0, bit_no = 1), exactly 39 bit events - not 40 -
complete the 5-byte packet: after 39 bits the frame state is already back to
idle and ready has been signalled exactly once. -/
theorem returns_to_idle_after_39_bits :
    (acceptRun postMatchDemo (List.replicate 39 true)).wh2_packet_state = 0 ∧
    readyCount postMatchDemo (List.replicate 39 true) = 1 ∧
    (List.replicate 39 true).length = 39 := by
  refine ⟨by decide, by decide, by decide⟩

/-- Claim C2, amended: the frame decoder enters the bit-accumulating state
only immediately after a preamble match (the interrupt handler never sets it
to 2, and wh2_accept moves an idle or seeking state to 2 exactly when the
updated bit history ends in 110); from the post-match state it stays
accumulating with no ready signal through the first 38 bit events and returns
to idle with exactly one ready signal at the 39th bit event (5 bytes, byte 0
taking only 7 bits); and the packet-level timeout forces the frame state back
to idle from the interrupt handler. -/
theorem frame_state_lifecycle :
    (∀ (s : State) (rf : Bool),
      (isr s rf).wh2_packet_state = 2 → s.wh2_packet_state = 2) ∧
    (∀ (s : State) (hi : Bool), (s.wh2_packet_state = 0 ∨ s.wh2_packet_state = 1) →
      ((acceptEvent s hi).2.wh2_packet_state = 2 ↔ nextHistory s hi &&& 7 = 6)) ∧
    (∀ (s : State) (bits : List Bool),
      s.wh2_packet_state = 2 → s.packet_no = 0 → s.bit_no = 1 →
      (bits.length ≤ 38 →
        (acceptRun s bits).wh2_packet_state = 2 ∧ readyCount s bits = 0) ∧
      (bits.length = 39 →
        (acceptRun s bits).wh2_packet_state = 0 ∧ readyCount s bits = 1)) ∧
    (∀ (s : State) (rf : Bool), s.wh2_timeout > 0 →
      HAS_TIMED_OUT (s.wh2_timeout + 1) = true → (isr s rf).wh2_packet_state = 0) := by
  refine ⟨?_, ?_, ?_, ?_⟩
  · intro s rf h2
    obtain ⟨_, _, _, _, _, _, _, _, _, a10⟩ := isrSample_effects s rf
    obtain ⟨_, _, _, _, _, _, _, _, _, _, _, _, b13⟩ :=
      isrTimeout_effects (isrSample s rf)
    unfold isr at h2
    rcases b13 with hb | hb <;> rw [hb] at h2
    · rcases a10 with ha | ha <;> rw [ha] at h2
      · exact h2
      · exact absurd h2 (by norm_num)
    · exact absurd h2 (by norm_num)
  · intro s hi h01
    exact (acceptEvent_enter_accum s hi h01).1
  · intro s bits h2 hpn hbn
    constructor
    · intro hlen
      have hp := acceptRun_progress bits s h2 (by omega)
        (by rw [hpn, hbn]; omega)
      exact ⟨hp.1, hp.2.2.2⟩
    · intro hlen
      exact acceptRun_complete s bits h2 hpn hbn hlen
  · intro s rf h1 h2
    exact (isr_timeout_reset s rf h1 h2).1

theorem frame_state_lifecycle_witness :
    ((acceptRun postMatchDemo (List.replicate 39 false)).wh2_packet_state = 0 ∧
      readyCount postMatchDemo (List.replicate 39 false) = 1) ∧
    (isr timeoutDemo false).wh2_packet_state = 0 ∧
    ((acceptEvent initState false).2.wh2_packet_state = 2 ↔
      nextHistory initState false &&& 7 = 6) :=
  ⟨frame_state_lifecycle.2.2.1 postMatchDemo (List.replicate 39 false)
      rfl rfl rfl |>.2 (by decide),
   frame_state_lifecycle.2.2.2 timeoutDemo false (by decide) (by decide),
   frame_state_lifecycle.2.1 initState false (Or.inl rfl)⟩

/-- Claim C3: in the acquiring-pulse sampling state, when the line reads LOW
the incremented tick count is classified: a count in 2..3 raises the
classification event GOT_PULSE with LOGIC_HI (bit = 1) and moves to the
idle-gap state; a count in 7..8 raises GOT_PULSE alone (bit = 0) and moves to
the idle-gap state; any other count leaves wh2_flags untouched (no event) and
returns the sampler to its waiting state. -/
theorem pulse_classification (s : State) (h1 : s.sampling_state = 1) :
    (IS_HI_PULSE ((s.count + 1) % 256) = true →
      (isr s false).wh2_flags = (GOT_PULSE ||| LOGIC_HI) ∧
      (isr s false).sampling_state = 2) ∧
    (IS_LOW_PULSE ((s.count + 1) % 256) = true →
      (isr s false).wh2_flags = GOT_PULSE ∧ (isr s false).sampling_state = 2) ∧
    (IS_HI_PULSE ((s.count + 1) % 256) = false →
      IS_LOW_PULSE ((s.count + 1) % 256) = false →
      (isr s false).wh2_flags = s.wh2_flags ∧ (isr s false).sampling_state = 0) := by
  obtain ⟨_, _, _, _, _, _, _, _, b9, _, _, b12, _⟩ :=
    isrTimeout_effects (isrSample s false)
  refine ⟨fun hc => ?_, fun hc => ?_, fun hc1 hc2 => ?_⟩
  · unfold isr
    rw [b12, b9]
    constructor <;> simp [isrSample, h1, hc]
  · have hc1 : IS_HI_PULSE ((s.count + 1) % 256) = false := by
      unfold IS_HI_PULSE IS_LOW_PULSE at *
      simp at hc ⊢
      omega
    unfold isr
    rw [b12, b9]
    constructor <;> simp [isrSample, h1, hc, hc1]
  · unfold isr
    rw [b12, b9]
    constructor <;> simp [isrSample, h1, hc1, hc2]

theorem pulse_classification_witness :
    (IS_HI_PULSE ((({ initState with sampling_state := 1, count := 1 } : State).count + 1)
        % 256) = true) ∧
    (isr { initState with sampling_state := 1, count := 1 } false).wh2_flags
      = (GOT_PULSE ||| LOGIC_HI) ∧
    (isr { initState with sampling_state := 1, count := 1 } false).sampling_state = 2 :=
  ⟨by decide,
   (pulse_classification { initState with sampling_state := 1, count := 1 } rfl).1 (by decide)⟩

/-- Claim C4: in the idle-gap measuring state, while the incremented tick
count is below the minimum gap of 4 the sampler stays measuring the gap; on a
HIGH sample with count in 4..6 (at or above the minimum, below the
desynchronization threshold of 7) it proceeds to acquire the next pulse with
the counter reset; on a HIGH sample with count at or above 7 it resets to the
waiting state. -/
theorem idle_gap_behavior (s : State) (rf : Bool) (h2 : s.sampling_state = 2) :
    ((s.count + 1) % 256 < 4 → (isr s rf).sampling_state = 2) ∧
    (rf = true → 4 ≤ (s.count + 1) % 256 → (s.count + 1) % 256 ≤ 6 →
      (isr s rf).sampling_state = 1 ∧ (isr s rf).count = 0) ∧
    (rf = true → 6 < (s.count + 1) % 256 → (isr s rf).sampling_state = 0) := by
  obtain ⟨_, _, _, _, _, _, _, _, b9, b10, _, _, _⟩ :=
    isrTimeout_effects (isrSample s rf)
  refine ⟨fun hc => ?_, fun hrf hc1 hc2 => ?_, fun hrf hc => ?_⟩
  · unfold isr
    rw [b9]
    cases rf
    · simp [isrSample, h2]
    · have hn1 : ¬(6 < (s.count + 1) % 256) := by omega
      have hn2 : ¬(4 ≤ (s.count + 1) % 256) := by omega
      simp [isrSample, h2, IDLE_HAS_TIMED_OUT, IDLE_PERIOD_DONE, hn1, hn2]
  · subst hrf
    unfold isr
    rw [b9, b10]
    have hn1 : ¬(6 < (s.count + 1) % 256) := by omega
    constructor <;>
      simp [isrSample, h2, IDLE_HAS_TIMED_OUT, IDLE_PERIOD_DONE, hn1, hc1]
  · subst hrf
    unfold isr
    rw [b9]
    simp [isrSample, h2, IDLE_HAS_TIMED_OUT, IDLE_PERIOD_DONE, hc]

theorem idle_gap_behavior_witness :
    (({ initState with sampling_state := 2, count := 3 } : State).sampling_state = 2) ∧
    (isr { initState with sampling_state := 2, count := 3 } true).sampling_state = 1 ∧
    (isr { initState with sampling_state := 2, count := 3 } true).count = 0 :=
  ⟨rfl,
   (idle_gap_behavior { initState with sampling_state := 2, count := 3 } true rfl).2.1
     rfl (by decide) (by decide)⟩

/-- Claim C5: in the seeking-preamble state, shifting a new bit into the bit
history register transitions the frame state to accumulating-bits exactly
when the three least-significant bits of the updated register equal 110; the
updated register is stored, the call reports no ready packet, and whenever
the trailing three bits differ from 110 the state remains seeking-preamble. -/
theorem preamble_detection (s : State) (hi : Bool) (h1 : s.wh2_packet_state = 1) :
    ((acceptEvent s hi).2.wh2_packet_state = 2 ↔ nextHistory s hi &&& 7 = 6) ∧
    (acceptEvent s hi).2.history = nextHistory s hi ∧
    (acceptEvent s hi).1 = false ∧
    (¬(nextHistory s hi &&& 7 = 6) → (acceptEvent s hi).2.wh2_packet_state = 1) := by
  obtain ⟨he1, he2, he3⟩ := acceptEvent_enter_accum s hi (Or.inr h1)
  exact ⟨he1, he3, he2, acceptEvent_stay_seeking s hi (Or.inr h1)⟩

theorem preamble_detection_witness :
    (({ initState with wh2_packet_state := 1, history := 3 } : State).wh2_packet_state = 1) ∧
    ((acceptEvent { initState with wh2_packet_state := 1, history := 3 } false).2.wh2_packet_state
        = 2 ↔
      nextHistory { initState with wh2_packet_state := 1, history := 3 } false &&& 7 = 6) :=
  ⟨rfl, (preamble_detection { initState with wh2_packet_state := 1, history := 3 } false rfl).1⟩

/-- Claim C6: crc8 is a pure function of exactly its input bytes.  For byte
inputs it coincides with the bit-level specification that starts from 0 and,
for each byte processed most-significant-bit first, shifts the accumulator
left one bit (modulo 256) and XORs in 0x31 exactly when the top bits of
accumulator and remaining input differ; its output is always one byte;
wh2_calculate_crc depends only on the first 4 packet bytes; and wh2_valid
holds exactly when that checksum equals packet byte 4. -/
theorem crc8_agrees_with_spec :
    (∀ bytes : List Nat, (∀ b ∈ bytes, b < 256) → crc8 bytes = crc8_spec bytes) ∧
    (∀ bytes : List Nat, crc8 bytes < 256) ∧
    (∀ p q : List Nat, p.take 4 = q.take 4 → wh2_calculate_crc p = wh2_calculate_crc q) ∧
    (∀ p : List Nat,
      wh2_valid (wh2_calculate_crc p) p = true ↔ crc8 (p.take 4) = p.getD 4 0) := by
  refine ⟨crc8_eq_spec, crc8_lt, ?_, ?_⟩
  · intro p q h
    unfold wh2_calculate_crc
    rw [h]
  · intro p
    simp [wh2_valid, wh2_calculate_crc]

theorem crc8_agrees_with_spec_witness :
    (∀ b ∈ ([0x01, 0x23, 0x45, 0x32] : List Nat), b < 256) ∧
    crc8 [0x01, 0x23, 0x45, 0x32] = crc8_spec [0x01, 0x23, 0x45, 0x32] :=
  ⟨by decide, crc8_agrees_with_spec.1 _ (by decide)⟩

/-- Claim C7: whenever the armed packet timeout counter exceeds its threshold
of 600 ticks on the next increment, the interrupt handler forces the frame
state back to idle and clears the timeout, regardless of any partial frame
progress; and from any idle frame state - whatever stale history, counters or
packet bytes a truncated frame left behind - the bit sequence 1,1,0 is again
detected as a preamble, entering accumulating-bits with a cleared packet
buffer and reset counters. -/
theorem timeout_recovery :
    (∀ (s : State) (rf : Bool), s.wh2_timeout > 0 →
      HAS_TIMED_OUT (s.wh2_timeout + 1) = true →
      (isr s rf).wh2_packet_state = 0 ∧ (isr s rf).wh2_timeout = 0) ∧
    (∀ s : State, s.wh2_packet_state = 0 →
      (acceptRun s [true, true, false]).wh2_packet_state = 2 ∧
      (acceptRun s [true, true, false]).packet_no = 0 ∧
      (acceptRun s [true, true, false]).bit_no = 1 ∧
      packetList (acceptRun s [true, true, false]) = [0, 0, 0, 0, 0] ∧
      readyCount s [true, true, false] = 0) := by
  exact ⟨isr_timeout_reset, acceptRun_resync⟩

theorem timeout_recovery_witness :
    (truncatedDemo.wh2_timeout > 0 ∧
      (isr truncatedDemo false).wh2_packet_state = 0 ∧
      (isr truncatedDemo false).wh2_timeout = 0) ∧
    ((acceptRun staleDemo [true, true, false]).wh2_packet_state = 2 ∧
      packetList (acceptRun staleDemo [true, true, false]) = [0, 0, 0, 0, 0]) :=
  ⟨⟨by decide, timeout_recovery.1 truncatedDemo false (by decide) (by decide)⟩,
   ⟨(timeout_recovery.2 staleDemo rfl).1, (timeout_recovery.2 staleDemo rfl).2.2.2.1⟩⟩

/-- Claim C8, counterexample: with a pulse classification pending
(wh2_flags = GOT_PULSE) and the frame decoder accumulating
(wh2_packet_state = 2), a single interrupt tick that overflows the armed
packet timeout mutates the frame state, resetting it to 0 - so the interrupt
context does not leave wh2_packet_state unchanged. -/
theorem isr_resets_frame_state_example :
    timeoutDemo.wh2_flags = GOT_PULSE ∧
    timeoutDemo.wh2_packet_state = 2 ∧
    (isr timeoutDemo false).wh2_packet_state = 0 := by
  refine ⟨rfl, rfl, by decide⟩

/-- Claim C8, amended: on every invocation the interrupt handler leaves the
5-byte packet buffer untouched, and the only mutation it ever applies to the
frame state is the reset to idle (in the waiting sampling state or on packet
timeout overflow): the resulting wh2_packet_state is either unchanged or 0. -/
theorem isr_packet_buffer_untouched (s : State) (rf : Bool) :
    (isr s rf).p0 = s.p0 ∧ (isr s rf).p1 = s.p1 ∧ (isr s rf).p2 = s.p2 ∧
    (isr s rf).p3 = s.p3 ∧ (isr s rf).p4 = s.p4 ∧
    ((isr s rf).wh2_packet_state = s.wh2_packet_state ∨
      (isr s rf).wh2_packet_state = 0) := by
  obtain ⟨a1, a2, a3, a4, a5, _, _, _, _, a10⟩ := isrSample_effects s rf
  obtain ⟨b1, b2, b3, b4, b5, _, _, _, _, _, _, _, b13⟩ :=
    isrTimeout_effects (isrSample s rf)
  unfold isr
  refine ⟨by rw [b1, a1], by rw [b2, a2], by rw [b3, a3], by rw [b4, a4],
    by rw [b5, a5], ?_⟩
  rcases b13 with hb | hb
  · rw [hb]
    exact a10
  · exact Or.inr hb

/-- Claim C9: on the first wh2_accept call after the frame state is idle the
bit history is seeded to 0xFF and the triggering bit is processed in the same
call; hence a single 0-valued bit arriving immediately after idle already
satisfies the preamble test (history becomes 0xFE, whose trailing bits are
110, the two 1-bits coming from the all-ones sentinel), clearing the packet
buffer, resetting the counters, arming the timeout and entering
accumulating-bits without any real 1-bits having been received. -/
theorem idle_zero_bit_enters_accumulation (s : State) (h0 : s.wh2_packet_state = 0) :
    (acceptEvent s false).1 = false ∧
    (acceptEvent s false).2.wh2_packet_state = 2 ∧
    (acceptEvent s false).2.history = 0xFE ∧
    (acceptEvent s false).2.packet_no = 0 ∧
    (acceptEvent s false).2.bit_no = 1 ∧
    packetList (acceptEvent s false).2 = [0, 0, 0, 0, 0] ∧
    (acceptEvent s false).2.wh2_timeout = 1 := by
  have hm : (254:Nat) &&& 7 = 6 := by decide
  simp [acceptEvent, wh2_accept, h0, hm, GOT_PULSE, LOGIC_HI, packetList]

theorem idle_zero_bit_enters_accumulation_witness :
    initState.wh2_packet_state = 0 ∧
    (acceptEvent initState false).2.wh2_packet_state = 2 ∧
    (acceptEvent initState false).2.history = 0xFE :=
  ⟨rfl, (idle_zero_bit_enters_accumulation initState rfl).2.1,
    (idle_zero_bit_enters_accumulation initState rfl).2.2.1⟩

/-- Claim C10: every packet the pipeline ever signals ready, over any input
sample sequence from the initial state, has its first byte at most 0x7F:
wh2_packet[0] is zeroed at the preamble match and bit_no starts at 1, so only
7 bits are shifted into byte 0 before accumulation advances to byte 1. -/
theorem ready_packet_first_byte_le_127 (bs : List Bool) (p : List Nat)
    (hp : p ∈ runCollect initState bs) : p.getD 0 0 ≤ 127 := by
  have hlt := runCollect_head_lt bs initState invP_init p hp
  omega

theorem ready_packet_first_byte_le_127_witness :
    demoPacket ∈ runCollect initState demoInput ∧ demoPacket.getD 0 0 ≤ 127 :=
  have hmem : demoPacket ∈ runCollect initState demoInput := by decide
  ⟨hmem, ready_packet_first_byte_le_127 demoInput demoPacket hmem⟩

end BetterWH2
